import Mathlib

/-!
Verification of the `FollowJointTrajectoryController` from
`ubr_controllers/src/follow_joint_trajectory.cpp`.

The controller is shallowly embedded: doubles become rationals, the
per-joint vectors become lists, and the stateful methods (`init`,
`update`, `executeCb`, `getPointFromCurrent`) become pure functions
from an explicit `ControllerState` (plus an environment record for the
values read from the hardware, the clock and the manager) to an output
record collecting the commands issued, the action-server calls made and
the successor state.

The spline sampler, the trajectory/message conversion and the splicer
live in other translation units of the repository; `update` and
`executeCb` take them as function parameters, exactly as the controller
only ever uses them through their call interfaces.
-/

set_option autoImplicit false

namespace UbrControllers

/-- Error codes of `control_msgs::FollowJointTrajectoryResult`.  A
default-constructed result carries `SUCCESSFUL` (= 0). -/
inductive ErrorCode where
  | SUCCESSFUL
  | INVALID_GOAL
  | INVALID_JOINTS
  | OLD_HEADER_TIMESTAMP
  | PATH_TOLERANCE_VIOLATED
  | GOAL_TOLERANCE_VIOLATED
  deriving DecidableEq, Repr

/-- A call made on the action server during one controller entry point:
`setAborted`, `setSucceeded` or `setPreempted`, with the result error
code and the textual reason passed in the source. -/
inductive ServerCall where
  | setAborted (code : ErrorCode) (msg : String)
  | setSucceeded (code : ErrorCode) (msg : String)
  | setPreempted (msg : String)
  deriving DecidableEq, Repr

/-- `TrajectoryPoint` of `ubr_controllers`: positions, optional
velocities and accelerations, absolute time in seconds. -/
structure TrajectoryPoint where
  q : List ℚ
  qd : List ℚ
  qdd : List ℚ
  time : ℚ
  deriving DecidableEq, Repr

/-- A trajectory is an ordered list of points. -/
structure Trajectory where
  points : List TrajectoryPoint
  deriving DecidableEq, Repr

/-- The default-constructed `TrajectoryPoint`. -/
def dfltPoint : TrajectoryPoint := ⟨[], [], [], 0⟩

/-- Per-joint tolerance arrays, as the members `path_tolerance_` /
`goal_tolerance_` of the controller. -/
structure Tolerances where
  q : List ℚ
  qd : List ℚ
  qdd : List ℚ
  deriving DecidableEq, Repr

/-- One entry of the goal message arrays `path_tolerance` /
`goal_tolerance` (a `control_msgs::JointTolerance`). -/
structure TolEntry where
  name : String
  position : ℚ
  velocity : ℚ
  acceleration : ℚ
  deriving DecidableEq, Repr

/-- One point of the goal message trajectory. -/
structure MsgPoint where
  positions : List ℚ
  velocities : List ℚ
  accelerations : List ℚ
  time_from_start : ℚ
  deriving DecidableEq, Repr

/-- The fields of a `FollowJointTrajectoryGoal` message the controller
reads. -/
structure GoalMsg where
  traj_joint_names : List String
  traj_points : List MsgPoint
  path_tolerance : List TolEntry
  goal_tolerance : List TolEntry
  goal_time_tolerance : ℚ
  deriving DecidableEq, Repr

/-- The `control_msgs::FollowJointTrajectoryFeedback` member
`feedback_`, restricted to its numeric per-joint arrays. -/
structure Feedback where
  desired_positions : List ℚ
  desired_velocities : List ℚ
  desired_accelerations : List ℚ
  actual_positions : List ℚ
  actual_velocities : List ℚ
  actual_effort : List ℚ
  error_positions : List ℚ
  error_velocities : List ℚ
  deriving DecidableEq, Repr

/-- The mutable members of `FollowJointTrajectoryController`.  The
sampler is represented by the trajectory it was constructed from (the
sampler object is immutable and the controller only reads it through
`sample`, `end_time` and `getTrajectory`). -/
structure ControllerState where
  initialized : Bool
  preempted : Bool
  stop_with_action : Bool
  joint_names : List String
  sampler : Option Trajectory
  last_sample : TrajectoryPoint
  feedback : Feedback
  has_path_tolerance : Bool
  path_tolerance : Tolerances
  goal_tolerance : Tolerances
  goal_time_tolerance : ℚ
  deriving DecidableEq, Repr

/-- Values the controller reads from its environment during one entry
point: the clock, the joint handles and the manager's answer to
`requestStart`. -/
structure Env where
  now : ℚ
  jointPos : List ℚ
  jointVel : List ℚ
  jointEff : List ℚ
  requestStartOk : Bool
  deriving DecidableEq, Repr

/-! ## Tolerance monitor (`update`, lines 227-279) -/

/-- Path-tolerance check of `update` (lines 228-250): for each joint in
order, an abort call is made for a violated position tolerance and
another for a violated velocity tolerance.  The loop body has no
`break` or `return`, so every violated check emits its own
`setAborted`. -/
def pathToleranceCalls (J : Nat) (tolQ tolQd errP errV : List ℚ) : List ServerCall :=
  (List.range J).flatMap fun j =>
    (if tolQ.getD j 0 > 0 ∧ |errP.getD j 0| > tolQ.getD j 0 then
      [ServerCall.setAborted .PATH_TOLERANCE_VIOLATED
        "Trajectory path tolerances violated (position)."]
     else []) ++
    (if tolQd.getD j 0 > 0 ∧ |errV.getD j 0| > tolQd.getD j 0 then
      [ServerCall.setAborted .PATH_TOLERANCE_VIOLATED
        "Trajectory path tolerances violated (velocity)."]
     else [])

/-- The `inside_tolerances` flag of the goal check (lines 255-263): a
fold over the joints that clears the flag on any enabled, violated
position tolerance. -/
def insideGoalTolerances (J : Nat) (golQ errP : List ℚ) : Bool :=
  (List.range J).foldl
    (fun acc j => if golQ.getD j 0 > 0 ∧ |errP.getD j 0| > golQ.getD j 0 then false else acc)
    true

/-- Goal check of `update` (lines 252-279): evaluated only once `now`
reaches the sampler's end time; succeed when inside tolerances, abort
`GOAL_TOLERANCE_VIOLATED` when past the end time plus the goal time
tolerance plus the fixed 0.6 s grace, else emit nothing. -/
def goalCheckCalls (now endT gtt : ℚ) (J : Nat) (golQ errP : List ℚ) : List ServerCall :=
  if now ≥ endT then
    if insideGoalTolerances J golQ errP then
      [ServerCall.setSucceeded .SUCCESSFUL "Trajectory succeeded."]
    else if now > endT + gtt + 3/5 then
      [ServerCall.setAborted .GOAL_TOLERANCE_VIOLATED
        "Trajectory not executed within time limits."]
    else []
  else []

/-! ## `update` (lines 169-305) -/

/-- Output of one `update` tick: the action-server calls, the
`setPositionCommand (position, velocity, effort)` triples issued to the
joint handles in order, the boolean return value, and the successor
state. -/
structure UpdateOutput where
  serverCalls : List ServerCall
  commands : List (ℚ × ℚ × ℚ)
  ret : Bool
  state : ControllerState
  deriving DecidableEq, Repr

/-- `FollowJointTrajectoryController::update`.  `sample`, `endTime`
stand for the spline sampler's `sample` and `end_time` methods
(implemented in another translation unit) and `sad` for
`angles::shortest_angular_distance`. -/
def update (sample : Trajectory → ℚ → TrajectoryPoint) (endTime : Trajectory → ℚ)
    (sad : ℚ → ℚ → ℚ) (serverActive : Bool) (env : Env)
    (s : ControllerState) : UpdateOutput :=
  if !s.initialized then ⟨[], [], false, s⟩
  else
    match s.sampler, serverActive with
    | some tr, true =>
      let J := s.joint_names.length
      let p := sample tr env.now
      let s1 := { s with last_sample := p }
      if p.q.length = J then
        let fb0 := s.feedback
        let dpos := (List.range J).map fun i => p.q.getD i 0
        let dvel := if p.qd.length = J then (List.range J).map (fun i => p.qd.getD i 0)
                    else fb0.desired_velocities
        let dacc := if p.qd.length = J ∧ p.qdd.length = J then
                      (List.range J).map (fun i => p.qdd.getD i 0)
                    else fb0.desired_accelerations
        let apos := (List.range J).map fun j => env.jointPos.getD j 0
        let avel := (List.range J).map fun j => env.jointVel.getD j 0
        let aeff := (List.range J).map fun j => env.jointEff.getD j 0
        let epos := (List.range J).map fun j => sad (dpos.getD j 0) (apos.getD j 0)
        let evel := (List.range J).map fun j => avel.getD j 0 - dvel.getD j 0
        let pathCalls := if s.has_path_tolerance then
                           pathToleranceCalls J s.path_tolerance.q s.path_tolerance.qd epos evel
                         else []
        let goalCalls := goalCheckCalls env.now (endTime tr) s.goal_time_tolerance J
                           s.goal_tolerance.q epos
        let fb := { desired_positions := dpos, desired_velocities := dvel,
                    desired_accelerations := dacc, actual_positions := apos,
                    actual_velocities := avel, actual_effort := aeff,
                    error_positions := epos, error_velocities := evel : Feedback }
        ⟨pathCalls ++ goalCalls,
         (List.range J).map (fun j => (dpos.getD j 0, dvel.getD j 0, 0)),
         true,
         { s1 with feedback := fb }⟩
      else ⟨[], [], false, s1⟩
    | _, _ =>
      if s.last_sample.q.length = s.joint_names.length then
        ⟨[], (List.range s.joint_names.length).map (fun j => (s.last_sample.q.getD j 0, 0, 0)),
         true, s⟩
      else ⟨[], [], false, s⟩

/-! ## Action-server result channel -/

/-- Modelled from the spec: the action-server result channel records a
goal outcome once; `setSucceeded` / `setAborted` on a goal that already
has an outcome are ignored — the first call wins (spec section 5). -/
def applyCalls : Option ServerCall → List ServerCall → Option ServerCall
  | r, [] => r
  | some r, _ :: cs => applyCalls (some r) cs
  | none, c :: cs => applyCalls (some c) cs

/-! ## `getPointFromCurrent` (lines 526-559) -/

/-- `FollowJointTrajectoryController::getPointFromCurrent`: a point
holding the present joint positions; velocities (zeroed when
`zero_vel`) only when `incl_vel`; zero accelerations only when
`incl_acc`; stamped with the current time. -/
def getPointFromCurrent (J : Nat) (pos vel : List ℚ) (now : ℚ)
    (incl_vel incl_acc zero_vel : Bool) : TrajectoryPoint :=
  { q := (List.range J).map fun j => pos.getD j 0
    qd :=
      if incl_vel && zero_vel then List.replicate J 0
      else if incl_vel then (List.range J).map fun j => vel.getD j 0
      else []
    qdd := if incl_acc then List.replicate J 0 else []
    time := now }

/-! ## Tolerance conversion (`executeCb`, lines 416-483) -/

/-- Write one tolerance entry into slot `j` of the tolerance arrays. -/
def setTolSlot (t : Tolerances) (j : Nat) (e : TolEntry) : Tolerances :=
  { q := t.q.set j e.position, qd := t.qd.set j e.velocity, qdd := t.qdd.set j e.acceleration }

/-- Inner loop of the source's tolerance conversion for one joint named
`jname` at slot `j`, iterating over the remaining entries with the
current value of `index`: on a name match set `index` and `break`
(without copying); otherwise, if `index` is still `-1`, abort
(`none`); otherwise copy entry `i` into slot `j` and continue.  This is
a literal rendering of the loop body at lines 422-440 / 453-471. -/
def tolInner_src (jname : String) (j : Nat) :
    List TolEntry → Int → Tolerances → Option Tolerances
  | [], _, t => some t
  | e :: rest, index, t =>
    if jname = e.name then some t
    else if index = -1 then none
    else tolInner_src jname j rest index (setTolSlot t j e)

/-- Outer loop of the source's tolerance conversion: for each
controlled joint (name `n`, slot `j`) run the inner loop with `index`
starting at `-1`; an inner abort aborts the whole conversion. -/
def tolConvert_src : List String → List TolEntry → Nat → Tolerances → Option Tolerances
  | [], _, _, t => some t
  | n :: rest, entries, j, t =>
    match tolInner_src n j entries (-1) t with
    | none => none
    | some t1 => tolConvert_src rest entries (j + 1) t1

/-- Modelled from the spec: the fixed tolerance-resolution loop the
spec prescribes in place of the source's broken one (spec sections 4.4
step 8 and 9, note on tolerance parsing) — for each controlled joint in
canonical order, find the tolerance entry whose name matches that
joint; if none matches, fail; otherwise copy its
position/velocity/acceleration once into that joint's slot. -/
def tolConvert_spec : List String → List TolEntry → Nat → Tolerances → Option Tolerances
  | [], _, _, t => some t
  | n :: rest, entries, j, t =>
    match entries.find? (fun e => e.name == n) with
    | none => none
    | some e => tolConvert_spec rest entries (j + 1) (setTolSlot t j e)

/-! ## `executeCb` (lines 311-524, up to the feedback loop) -/

/-- Path-tolerance block of `executeCb` (lines 416-446): when the
message array is sized to the joint count, `has_path_tolerance_` is set
before the conversion loop runs; the `Bool` is `false` when the loop
aborted the goal. -/
def pathTolerancePhase (goal : GoalMsg) (s : ControllerState) : ControllerState × Bool :=
  if goal.path_tolerance.length = s.joint_names.length then
    let s1 := { s with has_path_tolerance := true }
    match tolConvert_src s1.joint_names goal.path_tolerance 0 s1.path_tolerance with
    | none => (s1, false)
    | some pt => ({ s1 with path_tolerance := pt }, true)
  else
    ({ s with has_path_tolerance := false }, true)

/-- Goal-tolerance block of `executeCb` (lines 448-483): sized array
runs the conversion loop, otherwise every joint gets the 0.02 default
on all three axes. -/
def goalTolerancePhase (goal : GoalMsg) (s : ControllerState) : ControllerState × Bool :=
  if goal.goal_tolerance.length = s.joint_names.length then
    match tolConvert_src s.joint_names goal.goal_tolerance 0 s.goal_tolerance with
    | none => (s, false)
    | some gt => ({ s with goal_tolerance := gt }, true)
  else
    let J := s.joint_names.length
    ({ s with goal_tolerance :=
        ⟨List.replicate J (1/50), List.replicate J (1/50), List.replicate J (1/50)⟩ }, true)

/-- Output of the intake handler, modelled through the
`requestStart` check and the decision whether the 50 Hz feedback loop
is entered.  `installed` records whether control reached the sampler
installation at line 413. -/
structure ExecuteOutput where
  serverCalls : List ServerCall
  requestedStop : Bool
  requestedStart : Bool
  installed : Bool
  enteredLoop : Bool
  state : ControllerState
  deriving DecidableEq, Repr

/-- Lines 348-408 of `executeCb`: choose the executable trajectory.
When previously preempted, splice the live sampler's trajectory (if it
has more than two points) or a one-point trajectory holding the last
sample (cut time 0, taking all new points) with the new one; otherwise
pass the converted trajectory through, prepending a zero-velocity
current-state point when the message starts in the future, or — for a
single-point trajectory — synthesize `[current_state, new_point]`. -/
def buildExecutable (splice : Trajectory → Trajectory → ℚ → Option Trajectory)
    (env : Env) (goal : GoalMsg) (s : ControllerState) (nt : Trajectory) :
    Option Trajectory :=
  if s.preempted then
    match s.sampler with
    | some tr =>
      if tr.points.length > 2 then splice tr nt env.now
      else splice ⟨[s.last_sample]⟩ nt 0
    | none => splice ⟨[s.last_sample]⟩ nt 0
  else if nt.points.length > 1 then
    if (goal.traj_points.headD ⟨[], [], [], 0⟩).time_from_start > 0 then
      some ⟨getPointFromCurrent s.joint_names.length env.jointPos env.jointVel env.now
              (decide (0 < (nt.points.headD dfltPoint).qd.length))
              (decide (0 < (nt.points.headD dfltPoint).qdd.length)) true :: nt.points⟩
    else some nt
  else
    some ⟨[getPointFromCurrent s.joint_names.length env.jointPos env.jointVel env.now
             (decide (0 < (nt.points.headD dfltPoint).qd.length))
             (decide (0 < (nt.points.headD dfltPoint).qdd.length)) false,
           nt.points.headD dfltPoint]⟩

/-- `FollowJointTrajectoryController::executeCb` from entry to the
start of the 50 Hz feedback loop.  `trajFromMsg` stands for
`trajectoryFromMsg` and `splice` for `spliceTrajectories`, both
implemented in another translation unit of the repository. -/
def executeCb (trajFromMsg : GoalMsg → List String → Option Trajectory)
    (splice : Trajectory → Trajectory → ℚ → Option Trajectory)
    (env : Env) (goal : GoalMsg) (s : ControllerState) : ExecuteOutput :=
  if !s.initialized then
    ⟨[ServerCall.setAborted .SUCCESSFUL "Controller is not initialized."],
     false, false, false, false, s⟩
  else if goal.traj_points.isEmpty then
    ⟨[], true, false, false, false, s⟩
  else if goal.traj_joint_names.length ≠ s.joint_names.length then
    ⟨[ServerCall.setAborted .INVALID_JOINTS
        "Trajectory goal size does not match controlled joints size."],
     false, false, false, false, s⟩
  else
    match trajFromMsg goal s.joint_names with
    | none =>
      ⟨[ServerCall.setAborted .INVALID_JOINTS
          "Trajectory goal does not match controlled joints"],
       false, false, false, false, s⟩
    | some nt =>
      match buildExecutable splice env goal s nt with
      | none =>
        ⟨[ServerCall.setAborted .INVALID_JOINTS "Unable to splice trajectory"],
         false, false, false, false, s⟩
      | some ex =>
        let s1 := { s with sampler := some ex }
        match pathTolerancePhase goal s1 with
        | (s2, false) =>
          ⟨[ServerCall.setAborted .INVALID_JOINTS "Unable to convert path tolerances"],
           false, false, true, false, s2⟩
        | (s2, true) =>
          match goalTolerancePhase goal s2 with
          | (s3, false) =>
            ⟨[ServerCall.setAborted .INVALID_JOINTS "Unable to convert goal tolerances"],
             false, false, true, false, s3⟩
          | (s3, true) =>
            let s4 := { s3 with goal_time_tolerance := goal.goal_time_tolerance }
            if !env.requestStartOk then
              ⟨[ServerCall.setAborted .GOAL_TOLERANCE_VIOLATED
                  "Cannot execute trajectory, unable to start controller."],
               false, true, true, false, s4⟩
            else
              ⟨[], false, true, true, true, { s4 with preempted := false }⟩

/-! ## `init` (lines 47-126) -/

/-- `std::vector::resize` on a list of rationals: keep the existing
prefix, value-initialize (zero) the rest. -/
def resizeQ (l : List ℚ) (n : Nat) : List ℚ :=
  (List.range n).map fun i => l.getD i 0

/-- `FollowJointTrajectoryController::init`.  `managerOk` is whether a
manager pointer was supplied; `names` is the `joints` parameter (or
`none` when missing or malformed).  The parameter-type checks collapse
into the `Option`.  Note which members the source touches: the sampler
is cleared, `preempted_` cleared, names and handles installed, feedback
and tolerance arrays resized — `has_path_tolerance_` is never
written. -/
def init (managerOk : Bool) (names : Option (List String)) (swa : Bool)
    (s : ControllerState) : Bool × ControllerState :=
  if !managerOk then (false, { s with initialized := false })
  else
    let s1 := { s with sampler := none, preempted := false, joint_names := [] }
    match names with
    | none => (false, s1)
    | some ns =>
      let J := ns.length
      let fb := s1.feedback
      (true,
       { s1 with
          joint_names := ns
          stop_with_action := swa
          feedback :=
            { desired_positions := resizeQ fb.desired_positions J
              desired_velocities := resizeQ fb.desired_velocities J
              desired_accelerations := resizeQ fb.desired_accelerations J
              actual_positions := resizeQ fb.actual_positions J
              actual_velocities := resizeQ fb.actual_velocities J
              actual_effort := resizeQ fb.actual_effort J
              error_positions := resizeQ fb.error_positions J
              error_velocities := resizeQ fb.error_velocities J }
          path_tolerance :=
            ⟨resizeQ s1.path_tolerance.q J, resizeQ s1.path_tolerance.qd J,
             resizeQ s1.path_tolerance.qdd J⟩
          goal_tolerance :=
            ⟨resizeQ s1.goal_tolerance.q J, resizeQ s1.goal_tolerance.qd J,
             resizeQ s1.goal_tolerance.qdd J⟩
          initialized := true })

/-! ## Helper lemmas -/

theorem applyCalls_terminal (cs : List ServerCall) (r : ServerCall) :
    applyCalls (some r) cs = some r := by
  induction cs with
  | nil => rfl
  | cons c cs ih => simpa [applyCalls] using ih

theorem map_getElemD_self (l : List ℚ) (n : Nat) (h : l.length = n) :
    (List.range n).map (fun j => l[j]?.getD 0) = l := by
  subst h
  apply List.ext_getElem
  · simp
  · intro i h1 h2
    simp [List.getElem?_eq_getElem h2]

theorem map_getD_self (l : List ℚ) (n : Nat) (h : l.length = n) :
    (List.range n).map (fun j => l.getD j 0) = l := by
  simp only [List.getD_eq_getElem?_getD]
  exact map_getElemD_self l n h

theorem getPointFromCurrent_eq (J : Nat) (pos vel : List ℚ) (now : ℚ)
    (iv ia zv : Bool) (hp : pos.length = J) (hv : vel.length = J) :
    getPointFromCurrent J pos vel now iv ia zv =
      ⟨pos, if iv then (if zv then List.replicate J 0 else vel) else [],
       if ia then List.replicate J 0 else [], now⟩ := by
  unfold getPointFromCurrent
  cases iv <;> cases zv <;> cases ia <;>
    simp [map_getElemD_self pos J hp, map_getElemD_self vel J hv]

theorem foldl_clear_flag (P : Nat → Prop) [DecidablePred P] (l : List Nat) (b : Bool) :
    l.foldl (fun acc j => if P j then false else acc) b
      = (b && l.all fun j => !(decide (P j))) := by
  induction l generalizing b with
  | nil => simp
  | cons h t ih =>
    rw [List.foldl_cons, ih, List.all_cons]
    by_cases hP : P h <;> simp [hP, Bool.and_assoc]

theorem insideGoalTolerances_iff (J : Nat) (golQ errP : List ℚ) :
    insideGoalTolerances J golQ errP = true ↔
      ∀ j < J, golQ.getD j 0 > 0 → |errP.getD j 0| ≤ golQ.getD j 0 := by
  unfold insideGoalTolerances
  rw [foldl_clear_flag (fun j => golQ.getD j 0 > 0 ∧ |errP.getD j 0| > golQ.getD j 0)]
  simp only [Bool.true_and, List.all_eq_true, List.mem_range, Bool.not_eq_true',
    decide_eq_false_iff_not, not_and, not_lt]

/-! ## Shared concrete fixtures for witnesses -/

/-- All-empty feedback record. -/
def fb0 : Feedback := ⟨[], [], [], [], [], [], [], []⟩

/-- A pre-`init` state whose indeterminate `has_path_tolerance_`
member happens to read as `true`. -/
def state0 : ControllerState :=
  { initialized := false, preempted := false, stop_with_action := false,
    joint_names := [], sampler := none, last_sample := dfltPoint,
    feedback := fb0, has_path_tolerance := true,
    path_tolerance := ⟨[], [], []⟩, goal_tolerance := ⟨[], [], []⟩,
    goal_time_tolerance := 0 }

/-- An initialized single-joint controller state. -/
def exState : ControllerState :=
  { initialized := true, preempted := false, stop_with_action := false,
    joint_names := ["j1"], sampler := none, last_sample := dfltPoint,
    feedback := ⟨[0], [0], [0], [0], [0], [0], [0], [0]⟩,
    has_path_tolerance := false,
    path_tolerance := ⟨[0], [0], [0]⟩, goal_tolerance := ⟨[0], [0], [0]⟩,
    goal_time_tolerance := 0 }

/-- Trivial stand-ins for the conversion and splice functions. -/
def tmNone : GoalMsg → List String → Option Trajectory := fun _ _ => none

/-- Splice stand-in that always fails. -/
def spNone : Trajectory → Trajectory → ℚ → Option Trajectory := fun _ _ _ => none

/-- Environment with the manager accepting the start request. -/
def env0 : Env := ⟨0, [0], [0], [0], true⟩

/-- A goal message with an empty point list. -/
def emptyGoal : GoalMsg := ⟨["j1"], [], [], [], 0⟩

/-! ## Claims -/

/-- C9: `getPointFromCurrent (include_vel, include_acc, zero_vel)`
returns the present joint positions in canonical order; `qd` is
populated only when `include_vel`, all-zero if `zero_vel` and otherwise
the present joint velocities; `qdd` is populated (all-zero) exactly
when `include_acc`; `time` is the current wall time. -/
theorem C9_getPointFromCurrent (J : Nat) (pos vel : List ℚ) (now : ℚ)
    (iv ia zv : Bool) (hp : pos.length = J) (hv : vel.length = J) :
    (getPointFromCurrent J pos vel now iv ia zv).q = pos ∧
    (getPointFromCurrent J pos vel now iv ia zv).qd =
      (if iv then (if zv then List.replicate J 0 else vel) else []) ∧
    (getPointFromCurrent J pos vel now iv ia zv).qdd =
      (if ia then List.replicate J 0 else []) ∧
    (getPointFromCurrent J pos vel now iv ia zv).time = now := by
  rw [getPointFromCurrent_eq J pos vel now iv ia zv hp hv]
  exact ⟨rfl, rfl, rfl, rfl⟩

/-- Witness for C9 at a concrete two-joint reading. -/
theorem C9_witness :
    (getPointFromCurrent 2 [1, 2] [3, 4] 5 true false false).q = [1, 2] ∧
    (getPointFromCurrent 2 [1, 2] [3, 4] 5 true false false).qd =
      (if true then (if false then List.replicate 2 0 else [3, 4]) else []) ∧
    (getPointFromCurrent 2 [1, 2] [3, 4] 5 true false false).qdd =
      (if false then List.replicate 2 0 else []) ∧
    (getPointFromCurrent 2 [1, 2] [3, 4] 5 true false false).time = 5 :=
  C9_getPointFromCurrent 2 [1, 2] [3, 4] 5 true false false rfl rfl

/-- C2: the source's tolerance-resolution loop aborts with
`INVALID_JOINTS` even on a well-formed tolerance array listing both
joints in canonical order (it aborts whenever the first entry does not
match the joint currently being resolved, and never copies any
values), while the behaviour the claim states — resolve each joint by
name and copy once — succeeds and copies the matching entries. -/
theorem C2_tolerance_resolution_bug :
    tolConvert_src ["j1", "j2"] [⟨"j1", 1, 2, 3⟩, ⟨"j2", 4, 5, 6⟩] 0
        ⟨[0, 0], [0, 0], [0, 0]⟩ = none ∧
    tolConvert_spec ["j1", "j2"] [⟨"j1", 1, 2, 3⟩, ⟨"j2", 4, 5, 6⟩] 0
        ⟨[0, 0], [0, 0], [0, 0]⟩ = some ⟨[1, 4], [2, 5], [3, 6]⟩ := by
  constructor <;> rfl

/-- C8: `init` never writes `has_path_tolerance_`: the member keeps
whatever (indeterminate) value it had before, and in particular a
pre-`init` state in which it reads `true` still has it `true` right
after a successful `init` — path-tolerance checking is not disabled by
`init` as the claim requires. -/
theorem C8_init_keeps_path_flag :
    (∀ (mok : Bool) (names : Option (List String)) (swa : Bool) (s : ControllerState),
        ((init mok names swa s).2).has_path_tolerance = s.has_path_tolerance) ∧
    ((init true (some ["j1"]) false state0).1 = true ∧
      ((init true (some ["j1"]) false state0).2).has_path_tolerance = true) := by
  refine ⟨?_, rfl, rfl⟩
  intro mok names swa s
  unfold init
  cases mok <;> cases names <;> simp

/-- C6: an accepted goal with an empty point list makes the intake
handler request a stop from the manager and return: no server call is
made, no sampler is installed, `requestStart` is not issued, and the
controller state is untouched. -/
theorem C6_empty_trajectory (tm : GoalMsg → List String → Option Trajectory)
    (sp : Trajectory → Trajectory → ℚ → Option Trajectory)
    (env : Env) (goal : GoalMsg) (s : ControllerState)
    (hinit : s.initialized = true) (hempty : goal.traj_points = []) :
    executeCb tm sp env goal s = ⟨[], true, false, false, false, s⟩ := by
  unfold executeCb
  simp [hinit, hempty]

/-- Witness for C6 at the concrete empty goal. -/
theorem C6_witness :
    executeCb tmNone spNone env0 emptyGoal exState =
      ⟨[], true, false, false, false, exState⟩ :=
  C6_empty_trajectory tmNone spNone env0 emptyGoal exState rfl rfl

/-- C7: when initialized and no goal is executing (server inactive or
no sampler), `update` holds position: if the last sample has one entry
per joint, every joint `j` is commanded
`setPositionCommand (last_sample.q[j], 0, 0)` and `update` returns
`true`; without such a last sample no command is issued and `update`
returns `false`. -/
theorem C7_position_hold (sample : Trajectory → ℚ → TrajectoryPoint)
    (endTime : Trajectory → ℚ) (sad : ℚ → ℚ → ℚ) (serverActive : Bool)
    (env : Env) (s : ControllerState)
    (hinit : s.initialized = true)
    (hng : serverActive = false ∨ s.sampler = none) :
    (s.last_sample.q.length = s.joint_names.length →
      update sample endTime sad serverActive env s =
        ⟨[], (List.range s.joint_names.length).map
              (fun j => (s.last_sample.q.getD j 0, 0, 0)), true, s⟩) ∧
    (s.last_sample.q.length ≠ s.joint_names.length →
      update sample endTime sad serverActive env s = ⟨[], [], false, s⟩) := by
  unfold update
  rcases hng with h | h
  · subst h
    cases s.sampler <;>
      constructor <;> intro hl <;> simp [hinit, hl]
  · rw [h]
    cases serverActive <;>
      constructor <;> intro hl <;> simp [hinit, hl]

/-- Witness for C7: one state holding the last sample, one with no
usable last sample. -/
theorem C7_witness :
    (update (fun _ _ => dfltPoint) (fun _ => 0) (fun a b => b - a) false env0 exState =
      ⟨[], [], false, exState⟩) ∧
    (update (fun _ _ => dfltPoint) (fun _ => 0) (fun a b => b - a) false env0
        { exState with last_sample := ⟨[7], [], [], 0⟩ } =
      ⟨[], (List.range 1).map (fun j => (([(7 : ℚ)]).getD j 0, 0, 0)), true,
        { exState with last_sample := ⟨[7], [], [], 0⟩ }⟩) :=
  ⟨(C7_position_hold (fun _ _ => dfltPoint) (fun _ => 0) (fun a b => b - a) false env0
      exState rfl (Or.inl rfl)).2 (by decide),
   (C7_position_hold (fun _ _ => dfltPoint) (fun _ => 0) (fun a b => b - a) false env0
      { exState with last_sample := ⟨[7], [], [], 0⟩ } rfl (Or.inl rfl)).1 (by decide)⟩

/-- C3: the goal check is evaluated only once `now` reaches the
sampler's end time; there it succeeds exactly when every joint with an
enabled goal position tolerance has absolute position error within it;
otherwise it aborts `GOAL_TOLERANCE_VIOLATED` exactly when `now`
exceeds `end_time + goal_time_tolerance + 0.6`, and otherwise emits
nothing so sampling continues. -/
theorem C3_goal_check (now endT gtt : ℚ) (J : Nat) (golQ errP : List ℚ) :
    (goalCheckCalls now endT gtt J golQ errP =
        [ServerCall.setSucceeded .SUCCESSFUL "Trajectory succeeded."] ↔
      now ≥ endT ∧ ∀ j < J, golQ.getD j 0 > 0 → |errP.getD j 0| ≤ golQ.getD j 0) ∧
    (now < endT → goalCheckCalls now endT gtt J golQ errP = []) ∧
    (now ≥ endT → ¬ (∀ j < J, golQ.getD j 0 > 0 → |errP.getD j 0| ≤ golQ.getD j 0) →
      (now > endT + gtt + 3/5 →
        goalCheckCalls now endT gtt J golQ errP =
          [ServerCall.setAborted .GOAL_TOLERANCE_VIOLATED
            "Trajectory not executed within time limits."]) ∧
      (¬ now > endT + gtt + 3/5 → goalCheckCalls now endT gtt J golQ errP = [])) := by
  have hiff := insideGoalTolerances_iff J golQ errP
  by_cases h1 : now ≥ endT
  · cases hb : insideGoalTolerances J golQ errP with
    | true =>
      have hall := hiff.mp hb
      have hcall : goalCheckCalls now endT gtt J golQ errP =
          [ServerCall.setSucceeded .SUCCESSFUL "Trajectory succeeded."] := by
        unfold goalCheckCalls
        rw [if_pos h1]
        simp [hb]
      rw [hcall]
      exact ⟨⟨fun _ => ⟨h1, hall⟩, fun _ => rfl⟩,
        fun h2 => absurd h1 (not_le.mpr h2),
        fun _ hna => absurd hall hna⟩
    | false =>
      have hnall : ¬ ∀ j < J, golQ.getD j 0 > 0 → |errP.getD j 0| ≤ golQ.getD j 0 := by
        intro hall
        rw [hiff.mpr hall] at hb
        cases hb
      by_cases h3 : now > endT + gtt + 3/5
      · have hcall : goalCheckCalls now endT gtt J golQ errP =
            [ServerCall.setAborted .GOAL_TOLERANCE_VIOLATED
              "Trajectory not executed within time limits."] := by
          unfold goalCheckCalls
          rw [if_pos h1]
          simp [hb, h3]
        rw [hcall]
        exact ⟨⟨fun h => absurd h (by simp), fun hc => absurd hc.2 hnall⟩,
          fun h2 => absurd h1 (not_le.mpr h2),
          fun _ _ => ⟨fun _ => rfl, fun h3n => absurd h3 h3n⟩⟩
      · have hcall : goalCheckCalls now endT gtt J golQ errP = [] := by
          unfold goalCheckCalls
          rw [if_pos h1]
          simp [hb, h3]
        rw [hcall]
        exact ⟨⟨fun h => absurd h (by simp), fun hc => absurd hc.2 hnall⟩,
          fun h2 => absurd h1 (not_le.mpr h2),
          fun _ _ => ⟨fun h3y => absurd h3y h3, fun _ => rfl⟩⟩
  · have hcall : goalCheckCalls now endT gtt J golQ errP = [] := by
      unfold goalCheckCalls
      rw [if_neg h1]
    rw [hcall]
    exact ⟨⟨fun h => absurd h (by simp), fun hc => absurd hc.1 h1⟩,
      fun _ => rfl, fun h2 => absurd h2 h1⟩

/-- Witness for C3: a tick past the grace window with a violated goal
tolerance aborts `GOAL_TOLERANCE_VIOLATED`. -/
theorem C3_witness :
    goalCheckCalls 5 3 1 1 [1] [2] =
      [ServerCall.setAborted .GOAL_TOLERANCE_VIOLATED
        "Trajectory not executed within time limits."] :=
  ((C3_goal_check 5 3 1 1 [1] [2]).2.2 (by norm_num) (by norm_num)).1 (by norm_num)

/-- C1: per goal, at most one outcome is reported.  The monitor invokes
`setAborted` once for every violated check in a tick (the loop has no
break), but the action-server result channel retains only the first
terminal call: a goal that already has an outcome keeps it across any
further calls of the same or later ticks, and from an active goal the
tick's reported outcome is exactly the first call the monitor emits —
the later violations of the same tick (other joints, the velocity
check, the goal check) are suppressed. -/
theorem C1_first_outcome_wins (sample : Trajectory → ℚ → TrajectoryPoint)
    (endTime : Trajectory → ℚ) (sad : ℚ → ℚ → ℚ) (serverActive : Bool)
    (env : Env) (s : ControllerState) (prior : ServerCall) :
    applyCalls (some prior) (update sample endTime sad serverActive env s).serverCalls
      = some prior ∧
    applyCalls none (update sample endTime sad serverActive env s).serverCalls
      = (update sample endTime sad serverActive env s).serverCalls.head? := by
  refine ⟨applyCalls_terminal _ prior, ?_⟩
  cases (update sample endTime sad serverActive env s).serverCalls with
  | nil => rfl
  | cons c cs => simp [applyCalls, applyCalls_terminal]

theorem pathTolerancePhase_sampler (goal : GoalMsg) (s : ControllerState) :
    ((pathTolerancePhase goal s).1).sampler = s.sampler := by
  simp only [pathTolerancePhase]
  split
  · split <;> rfl
  · rfl

theorem goalTolerancePhase_sampler (goal : GoalMsg) (s : ControllerState) :
    ((goalTolerancePhase goal s).1).sampler = s.sampler := by
  simp only [goalTolerancePhase]
  split
  · split <;> rfl
  · rfl

theorem executeCb_installed_or_unchanged
    (tm : GoalMsg → List String → Option Trajectory)
    (sp : Trajectory → Trajectory → ℚ → Option Trajectory)
    (env : Env) (goal : GoalMsg) (s : ControllerState) :
    (executeCb tm sp env goal s).installed = true ∨
      (executeCb tm sp env goal s).state = s := by
  simp only [executeCb]
  repeat' split
  all_goals simp

/-- C10: whenever the intake handler returns before the sampler
installation at line 413 (controller not initialized, empty points,
joint-name count mismatch, conversion failure, or splice failure), the
whole controller state — sampler, last sample, tolerance arrays and
goal time tolerance included — is exactly as before the call. -/
theorem C10_intake_abort_atomic
    (tm : GoalMsg → List String → Option Trajectory)
    (sp : Trajectory → Trajectory → ℚ → Option Trajectory)
    (env : Env) (goal : GoalMsg) (s : ControllerState)
    (h : (executeCb tm sp env goal s).installed = false) :
    (executeCb tm sp env goal s).state = s := by
  rcases executeCb_installed_or_unchanged tm sp env goal s with h1 | h1
  · rw [h1] at h
    cases h
  · exact h1

/-- Witness for C10: the not-initialized abort leaves the state
untouched. -/
theorem C10_witness :
    (executeCb tmNone spNone env0 emptyGoal state0).state = state0 :=
  C10_intake_abort_atomic tmNone spNone env0 emptyGoal state0 rfl

theorem executeCb_refusal_cases
    (tm : GoalMsg → List String → Option Trajectory)
    (sp : Trajectory → Trajectory → ℚ → Option Trajectory)
    (env : Env) (goal : GoalMsg) (s : ControllerState)
    (h1 : env.requestStartOk = false) :
    (executeCb tm sp env goal s).requestedStart = false ∨
      ((executeCb tm sp env goal s).serverCalls =
          [ServerCall.setAborted .GOAL_TOLERANCE_VIOLATED
            "Cannot execute trajectory, unable to start controller."] ∧
        (executeCb tm sp env goal s).enteredLoop = false) := by
  simp only [executeCb]
  repeat' split
  all_goals simp_all

/-- C4: when the controller manager refuses the start request for an
accepted goal, the goal is aborted with `GOAL_TOLERANCE_VIOLATED` and
a descriptive reason, and the intake handler returns without entering
the feedback loop. -/
theorem C4_manager_refusal
    (tm : GoalMsg → List String → Option Trajectory)
    (sp : Trajectory → Trajectory → ℚ → Option Trajectory)
    (env : Env) (goal : GoalMsg) (s : ControllerState)
    (h1 : env.requestStartOk = false)
    (h2 : (executeCb tm sp env goal s).requestedStart = true) :
    (executeCb tm sp env goal s).serverCalls =
      [ServerCall.setAborted .GOAL_TOLERANCE_VIOLATED
        "Cannot execute trajectory, unable to start controller."] ∧
    (executeCb tm sp env goal s).enteredLoop = false := by
  rcases executeCb_refusal_cases tm sp env goal s h1 with h | h
  · rw [h] at h2
    cases h2
  · exact h

/-- Conversion stand-in returning a fixed two-point trajectory. -/
def tmTwo : GoalMsg → List String → Option Trajectory :=
  fun _ _ => some ⟨[⟨[1], [], [], 0⟩, ⟨[2], [], [], 1⟩]⟩

/-- A two-point goal message on joint `j1`, starting immediately. -/
def exGoalTwo : GoalMsg := ⟨["j1"], [⟨[1], [], [], 0⟩, ⟨[2], [], [], 1⟩], [], [], 0⟩

/-- Environment in which the manager refuses the start request. -/
def envNoStart : Env := ⟨0, [0], [0], [0], false⟩

/-- Witness for C4: a well-formed two-point goal whose start request
the manager refuses. -/
theorem C4_witness :
    (executeCb tmTwo spNone envNoStart exGoalTwo exState).serverCalls =
      [ServerCall.setAborted .GOAL_TOLERANCE_VIOLATED
        "Cannot execute trajectory, unable to start controller."] ∧
    (executeCb tmTwo spNone envNoStart exGoalTwo exState).enteredLoop = false :=
  C4_manager_refusal tmTwo spNone envNoStart exGoalTwo exState rfl rfl

theorem buildExecutable_single (sp : Trajectory → Trajectory → ℚ → Option Trajectory)
    (env : Env) (goal : GoalMsg) (s : ControllerState) (nt : Trajectory)
    (p : TrajectoryPoint) (hpre : s.preempted = false) (hpt : nt.points = [p]) :
    buildExecutable sp env goal s nt =
      some ⟨[getPointFromCurrent s.joint_names.length env.jointPos env.jointVel env.now
               (decide (0 < p.qd.length)) (decide (0 < p.qdd.length)) false, p]⟩ := by
  unfold buildExecutable
  simp [hpre, hpt]

theorem executeCb_state_sampler
    (tm : GoalMsg → List String → Option Trajectory)
    (sp : Trajectory → Trajectory → ℚ → Option Trajectory)
    (env : Env) (goal : GoalMsg) (s : ControllerState) (nt : Trajectory) (ex : Trajectory)
    (hinit : s.initialized = true)
    (hne : goal.traj_points.isEmpty = false)
    (hn : goal.traj_joint_names.length = s.joint_names.length)
    (htm : tm goal s.joint_names = some nt)
    (hex : buildExecutable sp env goal s nt = some ex) :
    (executeCb tm sp env goal s).state.sampler = some ex := by
  simp only [executeCb, hinit, hne, hn, htm, hex]
  rw [if_neg (by simp), if_neg (by simp), if_neg (by simp)]
  rcases hp : pathTolerancePhase goal { s with initialized := true, sampler := some ex }
    with ⟨s2, b2⟩
  have hs2 : s2.sampler = some ex := by
    have h := pathTolerancePhase_sampler goal { s with initialized := true, sampler := some ex }
    rw [hp] at h
    exact h
  cases b2
  · simpa using hs2
  · dsimp only
    rcases hg : goalTolerancePhase goal s2 with ⟨s3, b3⟩
    have hs3 : s3.sampler = some ex := by
      have h := goalTolerancePhase_sampler goal s2
      rw [hg] at h
      rw [hs2] at h
      exact h
    cases b3
    · simpa using hs3
    · dsimp only
      cases hrs : env.requestStartOk <;> simp [hrs, hs3]

/-- C5: a non-preempted accepted goal whose trajectory has exactly one
point gets a two-point executable trajectory installed in the sampler:
a synthesized current-state point — current positions, current
velocities when the goal point carries velocities, zero accelerations
when it carries accelerations, time = now — followed by the goal's
single point. -/
theorem C5_single_point_goal
    (tm : GoalMsg → List String → Option Trajectory)
    (sp : Trajectory → Trajectory → ℚ → Option Trajectory)
    (env : Env) (goal : GoalMsg) (s : ControllerState) (nt : Trajectory)
    (p : TrajectoryPoint)
    (hinit : s.initialized = true)
    (hpre : s.preempted = false)
    (hne : goal.traj_points.isEmpty = false)
    (hn : goal.traj_joint_names.length = s.joint_names.length)
    (htm : tm goal s.joint_names = some nt)
    (hpt : nt.points = [p])
    (hJ : env.jointPos.length = s.joint_names.length)
    (hV : env.jointVel.length = s.joint_names.length) :
    (executeCb tm sp env goal s).state.sampler =
      some ⟨[⟨env.jointPos,
              if 0 < p.qd.length then env.jointVel else [],
              if 0 < p.qdd.length then List.replicate s.joint_names.length 0 else [],
              env.now⟩, p]⟩ := by
  have hb := buildExecutable_single sp env goal s nt p hpre hpt
  rw [getPointFromCurrent_eq s.joint_names.length env.jointPos env.jointVel env.now
        _ _ false hJ hV] at hb
  have hb2 : buildExecutable sp env goal s nt =
      some ⟨[⟨env.jointPos,
              if 0 < p.qd.length then env.jointVel else [],
              if 0 < p.qdd.length then List.replicate s.joint_names.length 0 else [],
              env.now⟩, p]⟩ := by
    simpa using hb
  exact executeCb_state_sampler tm sp env goal s nt _ hinit hne hn htm hb2

/-- Conversion stand-in returning a fixed one-point trajectory. -/
def tmSingle : GoalMsg → List String → Option Trajectory :=
  fun _ _ => some ⟨[⟨[2], [1], [], 1⟩]⟩

/-- A one-point goal message on joint `j1`. -/
def exGoalSingle : GoalMsg := ⟨["j1"], [⟨[2], [1], [], 1⟩], [], [], 0⟩

/-- Witness for C5: a single-point goal at a concrete state. -/
theorem C5_witness :
    (executeCb tmSingle spNone env0 exGoalSingle exState).state.sampler =
      some ⟨[⟨env0.jointPos,
              if 0 < (⟨[2], [1], [], 1⟩ : TrajectoryPoint).qd.length then env0.jointVel
              else [],
              if 0 < (⟨[2], [1], [], 1⟩ : TrajectoryPoint).qdd.length then
                List.replicate exState.joint_names.length 0
              else [],
              env0.now⟩, ⟨[2], [1], [], 1⟩]⟩ :=
  C5_single_point_goal tmSingle spNone env0 exGoalSingle exState ⟨[⟨[2], [1], [], 1⟩]⟩
    ⟨[2], [1], [], 1⟩ rfl rfl rfl rfl rfl rfl rfl rfl

end UbrControllers
